import Mathlib

/-!
Verification of the steel-girder-bridge layout and constraint-resolution
engine (`cad.py`).  All linear quantities are millimetres, embedded as
rationals; the GUI spin boxes hold exact decimal values, so rational
arithmetic reproduces the committed values exactly.

The embedding follows the source:
* `compute_deck_total_width`     — `BridgeCADWidget.compute_deck_total_width`
* `compute_deck_total_width_mm`  — `BridgeDesignGUI.compute_deck_total_width_mm`
* `clamp_bracing` / `balance` / `update_bridge`
                                 — `BridgeDesignGUI.update_bridge`
* `num_braces` / `bracing_positions`
                                 — cross-bracing block of `draw_top_view`
* `skew_rad` / girder, bracing and bearing skew offsets
                                 — skew projection of `draw_top_view`
* `girder_positions_raw` / `girder_positions`
                                 — girder placement of `draw_cross_section`
-/

namespace CadModel

/-- The footpath configuration combo box (`Both` / `Left` / `Right` / `None`). -/
inductive FPConfig where
  | fpNone | fpLeft | fpRight | fpBoth
deriving DecidableEq, Repr

/-- The parameter dictionary assembled at the top of
`BridgeDesignGUI.update_bridge` (all lengths already converted to mm). -/
structure BridgeParams where
  span_length : ℚ
  carriageway_width : ℚ
  skew_angle : ℚ
  footpath_config : FPConfig
  median_present : Bool
  median_width : ℚ
  num_girders : ℕ
  girder_spacing : ℚ
  cross_bracing_spacing : ℚ
  crash_barrier_width : ℚ
  deck_thickness : ℚ
  deck_overhang : ℚ
  footpath_width : ℚ
  footpath_thickness : ℚ
  railing_height : ℚ
  railing_width : ℚ
deriving DecidableEq, Repr

/-- Footpath count from the configuration (`2` for both, `1` for left or
right, `0` otherwise) — shared by both deck-width functions. -/
def numFootpaths : FPConfig → ℕ
  | .fpBoth => 2
  | .fpLeft => 1
  | .fpRight => 1
  | .fpNone => 0

/-- `BridgeCADWidget.compute_deck_total_width` (cad.py lines 413-440):
with a median the carriageway is counted on each side (`carriageway * 2`). -/
def compute_deck_total_width (p : BridgeParams) : ℚ × ℕ :=
  let num_fp := numFootpaths p.footpath_config
  if p.median_present then
    (p.carriageway_width * 2 + p.median_width + 2 * p.crash_barrier_width
      + (num_fp : ℚ) * p.footpath_width, num_fp)
  else
    (p.carriageway_width + 2 * p.crash_barrier_width
      + (num_fp : ℚ) * p.footpath_width, num_fp)

/-- `BridgeDesignGUI.compute_deck_total_width_mm` (cad.py lines 2142-2168):
with a median the carriageway is counted ONCE (no `* 2`). -/
def compute_deck_total_width_mm (p : BridgeParams) : ℚ × ℕ :=
  let num_fp := numFootpaths p.footpath_config
  if p.median_present then
    (p.carriageway_width + p.median_width + 2 * p.crash_barrier_width
      + (num_fp : ℚ) * p.footpath_width, num_fp)
  else
    (p.carriageway_width + 2 * p.crash_barrier_width
      + (num_fp : ℚ) * p.footpath_width, num_fp)

/-- `MIN_OVERHANG` (cad.py line 2444). -/
def MIN_OVERHANG : ℚ := 300

/-- `MAX_OVERHANG` (cad.py line 2445). -/
def MAX_OVERHANG : ℚ := 2000

/-- Which field was last edited (`self._last_changed`). -/
inductive EditedField where
  | overhang | spacing | other
deriving DecidableEq, Repr

/-- The cross-bracing-spacing clamp at the top of `update_bridge`
(cad.py lines 2476-2480): `if cross_bracing_spacing > span_length` then
it is reset to `span_length`. -/
def clamp_bracing (p : BridgeParams) : BridgeParams :=
  if p.span_length < p.cross_bracing_spacing then
    { p with cross_bracing_spacing := p.span_length }
  else p

/-- The deck total seen by the balancer:
`deck_total, num_fp = self.compute_deck_total_width_mm(params)` (line 2482). -/
def deckTotal (p : BridgeParams) : ℚ :=
  (compute_deck_total_width_mm p).1

/-- `new_spacing = max(1000, min(24000, (deck_total - 2*overhang)/(n-1)))`
for a given overhang value (cad.py lines 2487-2488, 2519-2520, 2541-2542). -/
def clampedSpacingFor (p : BridgeParams) (overhang : ℚ) : ℚ :=
  max 1000 (min 24000 ((deckTotal p - 2 * overhang) / ((p.num_girders : ℚ) - 1)))

/-- `(deck_total - girder_spacing*(n-1))/2` for `n>1`, else `deck_total/2`
(cad.py lines 2498-2501 and 2512-2515). -/
def requiredOverhang (p : BridgeParams) : ℚ :=
  if 1 < p.num_girders then
    (deckTotal p - p.girder_spacing * ((p.num_girders : ℚ) - 1)) / 2
  else deckTotal p / 2

/-- `new_overhang = max(MIN_OVERHANG, min(MAX_OVERHANG, raw))` used by the
spacing branch (cad.py line 2503). -/
def clampedOverhang (p : BridgeParams) : ℚ :=
  max MIN_OVERHANG (min MAX_OVERHANG (requiredOverhang p))

/-- The overhang/spacing balancer of `update_bridge` (cad.py lines
2482-2565), after the bracing clamp: dispatch on the edited field, with the
1 mm hysteresis and the `[1000, 24000]` / `[MIN_OVERHANG, MAX_OVERHANG]`
clamps exactly as in the source. -/
def balance (ef : EditedField) (p : BridgeParams) : BridgeParams :=
  match ef with
  | .overhang =>
      if 1 < p.num_girders then
        if 1 < |clampedSpacingFor p p.deck_overhang - p.girder_spacing| then
          { p with girder_spacing := clampedSpacingFor p p.deck_overhang }
        else p
      else p
  | .spacing =>
      if 1 < |clampedOverhang p - p.deck_overhang| then
        { p with deck_overhang := clampedOverhang p }
      else p
  | .other =>
      if requiredOverhang p < MIN_OVERHANG then
        if 1 < p.num_girders then
          { p with girder_spacing := clampedSpacingFor p MIN_OVERHANG,
                   deck_overhang := MIN_OVERHANG }
        else { p with deck_overhang := MIN_OVERHANG }
      else if MAX_OVERHANG < requiredOverhang p then
        if 1 < p.num_girders then
          { p with girder_spacing := clampedSpacingFor p MAX_OVERHANG,
                   deck_overhang := MAX_OVERHANG }
        else { p with deck_overhang := MAX_OVERHANG }
      else
        if 1 < |requiredOverhang p - p.deck_overhang| then
          { p with deck_overhang := requiredOverhang p }
        else p

/-- `BridgeDesignGUI.update_bridge`, restricted to its parameter effect:
bracing clamp followed by the balancer. -/
def update_bridge (ef : EditedField) (p : BridgeParams) : BridgeParams :=
  balance ef (clamp_bracing p)

/-- The default parameter set committed by `reset_defaults` (cad.py lines
2572-2590) together with the fixed values of `update_bridge`. -/
def defaultParams : BridgeParams where
  span_length := 35000
  carriageway_width := 10500
  skew_angle := 0
  footpath_config := .fpBoth
  median_present := false
  median_width := 1200
  num_girders := 4
  girder_spacing := 2750
  cross_bracing_spacing := 3500
  crash_barrier_width := 500
  deck_thickness := 200
  deck_overhang := 1000
  footpath_width := 1500
  footpath_thickness := 200
  railing_height := 1000
  railing_width := 100

/-! ## Top view: cross bracing (cad.py lines 1691-1728) -/

/-- `num_braces = max(1, int(math.ceil(span_length / bracing_spacing)))`
(cad.py line 1697). -/
def num_braces (span_length bracing_spacing : ℚ) : ℕ :=
  max 1 (Int.toNat ⌈span_length / bracing_spacing⌉)

/-- The longitudinal brace positions drawn by `draw_top_view`
(cad.py lines 1698, 1704-1705, 1727-1728): one position
`start_x_base + section * (span_length_px / num_braces)` per
`section in range(1, num_braces)`. -/
def bracing_positions (start_x_base span_length_px : ℚ) (nb : ℕ) : List ℚ :=
  (List.range' 1 (nb - 1)).map
    (fun (sec : ℕ) => start_x_base + (sec : ℚ) * (span_length_px / (nb : ℚ)))

/-! ## Top view: skew projection (cad.py lines 1532-1592, 1704-1717)

Angles are real numbers; `math.radians(x) = x * π / 180` and
`math.tan` is `Real.tan`. -/

/-- `skew_rad = math.radians(-self.params['skew_angle'])` (cad.py line 1533):
the skew angle is NEGATED before conversion to radians. -/
noncomputable def skew_rad (skew_angle_deg : ℝ) : ℝ :=
  -skew_angle_deg * (Real.pi / 180)

/-- Girder endpoint: `x1 = start_x_base + y_offset_from_first *
math.tan(skew_rad)` (cad.py lines 1564-1567). -/
noncomputable def girder_skewed_x (start_x_base skew_angle_deg dy : ℝ) : ℝ :=
  start_x_base + dy * Real.tan (skew_rad skew_angle_deg)

/-- Bracing endpoint: `x1 = brace_x_base + y1_offset * math.tan(skew_rad)`
(cad.py lines 1711-1714). -/
noncomputable def bracing_skewed_x (brace_x_base skew_angle_deg dy : ℝ) : ℝ :=
  brace_x_base + dy * Real.tan (skew_rad skew_angle_deg)

/-- Bearing-line endpoint: `left_top_x = left_bearing_base_x +
(top_extent - girder_positions_y[0]) * math.tan(skew_rad)`
(cad.py lines 1588-1592). -/
noncomputable def bearing_skewed_x (bearing_base_x skew_angle_deg dy : ℝ) : ℝ :=
  bearing_base_x + dy * Real.tan (skew_rad skew_angle_deg)

/-! ## Cross section: girder placement (cad.py lines 611-626) -/

/-- Pre-clamp girder positions (cad.py lines 611-621): with
`n = max(1, num_girders)`, for `n > 1` the list
`[first_girder_x + i * actual_spacing_px for i in range(n)]` where
`first_girder_x = deck_left_x + deck_overhang_px`,
`last_girder_x = deck_right_x - deck_overhang_px` and
`actual_spacing_px = (last_girder_x - first_girder_x) / (n - 1)`;
for `n == 1` the single entry `[center_x]`. -/
def girder_positions_raw (deck_left_x deck_right_x deck_overhang_px
    center_x : ℚ) (num_girders : ℕ) : List ℚ :=
  if 1 < max 1 num_girders then
    (List.range (max 1 num_girders)).map
      (fun (i : ℕ) => (deck_left_x + deck_overhang_px) + (i : ℚ) *
        (((deck_right_x - deck_overhang_px) - (deck_left_x + deck_overhang_px))
          / ((max 1 num_girders : ℕ) - 1 : ℚ)))
  else [center_x]

/-- The per-position clamp (cad.py lines 623-626):
`min_allowed_x = deck_left_x + flange_half_px + 1`,
`max_allowed_x = deck_right_x - flange_half_px - 1`,
`positions = [max(min_allowed_x, min(max_allowed_x, p)) for p in positions]`. -/
def girder_positions (deck_left_x deck_right_x deck_overhang_px flange_half_px
    center_x : ℚ) (num_girders : ℕ) : List ℚ :=
  (girder_positions_raw deck_left_x deck_right_x deck_overhang_px center_x
      num_girders).map
    (fun p => max (deck_left_x + flange_half_px + 1)
      (min (deck_right_x - flange_half_px - 1) p))

/-! ## Helper lemmas -/

lemma clamp_bracing_overhang (p : BridgeParams) :
    (clamp_bracing p).deck_overhang = p.deck_overhang := by
  unfold clamp_bracing; split <;> rfl

lemma clamp_bracing_spacing (p : BridgeParams) :
    (clamp_bracing p).girder_spacing = p.girder_spacing := by
  unfold clamp_bracing; split <;> rfl

lemma clamp_bracing_girders (p : BridgeParams) :
    (clamp_bracing p).num_girders = p.num_girders := by
  unfold clamp_bracing; split <;> rfl

lemma clamp_bracing_deckTotal (p : BridgeParams) :
    deckTotal (clamp_bracing p) = deckTotal p := by
  unfold clamp_bracing; split <;> rfl

lemma clamp_bracing_required (p : BridgeParams) :
    requiredOverhang (clamp_bracing p) = requiredOverhang p := by
  unfold requiredOverhang
  rw [clamp_bracing_deckTotal, clamp_bracing_girders, clamp_bracing_spacing]

lemma clamp_bracing_clampedOverhang (p : BridgeParams) :
    clampedOverhang (clamp_bracing p) = clampedOverhang p := by
  unfold clampedOverhang; rw [clamp_bracing_required]

lemma clamp_bracing_clampedSpacingFor (p : BridgeParams) (x : ℚ) :
    clampedSpacingFor (clamp_bracing p) x = clampedSpacingFor p x := by
  unfold clampedSpacingFor
  rw [clamp_bracing_deckTotal, clamp_bracing_girders]

/-- After the clamp, the bracing spacing is at most the span length. -/
lemma clamp_bracing_le (p : BridgeParams) :
    (clamp_bracing p).cross_bracing_spacing ≤ (clamp_bracing p).span_length := by
  unfold clamp_bracing; split
  · exact le_rfl
  · exact le_of_not_lt (by assumption)

lemma clamp_bracing_noop (q : BridgeParams)
    (h : q.cross_bracing_spacing ≤ q.span_length) : clamp_bracing q = q := by
  unfold clamp_bracing
  rw [if_neg (not_lt.mpr h)]

/-- The balancer never touches the bracing spacing or the span length. -/
lemma balance_cross_bracing (ef : EditedField) (p : BridgeParams) :
    (balance ef p).cross_bracing_spacing = p.cross_bracing_spacing
      ∧ (balance ef p).span_length = p.span_length := by
  unfold balance
  cases ef <;> dsimp only <;> split_ifs <;> exact ⟨rfl, rfl⟩

/-- The balancer never changes the girder count. -/
lemma balance_girders (ef : EditedField) (p : BridgeParams) :
    (balance ef p).num_girders = p.num_girders := by
  unfold balance
  cases ef <;> dsimp only <;> split_ifs <;> rfl

/-- The balancer never changes any deck-width driver, so the deck total is
stable under it. -/
lemma balance_deckTotal (ef : EditedField) (p : BridgeParams) :
    deckTotal (balance ef p) = deckTotal p := by
  unfold balance
  cases ef <;> dsimp only <;> split_ifs <;> rfl

/-- `update_bridge` is the balancer after the bracing clamp. -/
lemma update_bridge_eq (ef : EditedField) (p : BridgeParams) :
    update_bridge ef p = balance ef (clamp_bracing p) := rfl

/-- Unfolded form of the `'overhang'` branch. -/
lemma balance_overhang_def (p : BridgeParams) :
    balance .overhang p =
      if 1 < p.num_girders then
        if 1 < |clampedSpacingFor p p.deck_overhang - p.girder_spacing| then
          { p with girder_spacing := clampedSpacingFor p p.deck_overhang }
        else p
      else p := rfl

/-- Unfolded form of the `'spacing'` branch. -/
lemma balance_spacing_def (p : BridgeParams) :
    balance .spacing p =
      if 1 < |clampedOverhang p - p.deck_overhang| then
        { p with deck_overhang := clampedOverhang p }
      else p := rfl

/-- Unfolded form of the `'other'` branch. -/
lemma balance_other_def (p : BridgeParams) :
    balance .other p =
      if requiredOverhang p < MIN_OVERHANG then
        if 1 < p.num_girders then
          { p with girder_spacing := clampedSpacingFor p MIN_OVERHANG,
                   deck_overhang := MIN_OVERHANG }
        else { p with deck_overhang := MIN_OVERHANG }
      else if MAX_OVERHANG < requiredOverhang p then
        if 1 < p.num_girders then
          { p with girder_spacing := clampedSpacingFor p MAX_OVERHANG,
                   deck_overhang := MAX_OVERHANG }
        else { p with deck_overhang := MAX_OVERHANG }
      else
        if 1 < |requiredOverhang p - p.deck_overhang| then
          { p with deck_overhang := requiredOverhang p }
        else p := rfl

/-- Field characterisation of the `'overhang'` branch. -/
lemma balance_overhang_fields (p : BridgeParams) :
    (balance .overhang p).deck_overhang = p.deck_overhang
      ∧ (balance .overhang p).girder_spacing =
        (if 1 < p.num_girders then
          if 1 < |clampedSpacingFor p p.deck_overhang - p.girder_spacing| then
            clampedSpacingFor p p.deck_overhang
          else p.girder_spacing
        else p.girder_spacing) := by
  rw [balance_overhang_def]
  split_ifs <;> exact ⟨rfl, rfl⟩

/-- Field characterisation of the `'spacing'` branch. -/
lemma balance_spacing_fields (p : BridgeParams) :
    (balance .spacing p).girder_spacing = p.girder_spacing
      ∧ (balance .spacing p).deck_overhang =
        (if 1 < |clampedOverhang p - p.deck_overhang| then clampedOverhang p
         else p.deck_overhang) := by
  rw [balance_spacing_def]
  split_ifs <;> exact ⟨rfl, rfl⟩

/-- Field characterisation of the `'other'` branch. -/
lemma balance_other_fields (p : BridgeParams) :
    (balance .other p).deck_overhang =
      (if requiredOverhang p < MIN_OVERHANG then MIN_OVERHANG
       else if MAX_OVERHANG < requiredOverhang p then MAX_OVERHANG
       else if 1 < |requiredOverhang p - p.deck_overhang| then
         requiredOverhang p
       else p.deck_overhang)
    ∧ (balance .other p).girder_spacing =
      (if requiredOverhang p < MIN_OVERHANG then
        (if 1 < p.num_girders then clampedSpacingFor p MIN_OVERHANG
         else p.girder_spacing)
       else if MAX_OVERHANG < requiredOverhang p then
        (if 1 < p.num_girders then clampedSpacingFor p MAX_OVERHANG
         else p.girder_spacing)
       else p.girder_spacing) := by
  rw [balance_other_def]
  split_ifs <;> exact ⟨rfl, rfl⟩

/-- On the output of `update_bridge` the bracing clamp is a no-op, so a
second run is a plain second run of the balancer. -/
lemma update_bridge_twice (ef ef' : EditedField) (p : BridgeParams) :
    update_bridge ef' (update_bridge ef p)
      = balance ef' (balance ef (clamp_bracing p)) := by
  rw [update_bridge_eq, update_bridge_eq]
  congr 1
  apply clamp_bracing_noop
  rw [(balance_cross_bracing ef (clamp_bracing p)).1,
      (balance_cross_bracing ef (clamp_bracing p)).2]
  exact clamp_bracing_le p

/-! ## Claims -/

/-- Parameter set with the median enabled, used for C3. -/
def medianParams : BridgeParams := { defaultParams with median_present := true }

/-- C3 counterexample: with a median present, the balancer-side calculator
`compute_deck_total_width_mm` does NOT return
`2*carriageway + median + 2*crashBarrier + footpathCount*footpath`
(it counts the carriageway once and disagrees with the widget-side
calculator), refuting the claim at the default parameters with
`median_present = true`. -/
theorem median_width_calculators_disagree :
    (compute_deck_total_width_mm medianParams).1
        ≠ 2 * medianParams.carriageway_width + medianParams.median_width
          + 2 * medianParams.crash_barrier_width
          + ((compute_deck_total_width_mm medianParams).2 : ℚ)
            * medianParams.footpath_width
      ∧ (compute_deck_total_width_mm medianParams).1
        ≠ (compute_deck_total_width medianParams).1 := by
  constructor <;>
    norm_num [compute_deck_total_width, compute_deck_total_width_mm,
      medianParams, defaultParams, numFootpaths]

/-- C3 (amended): with median present, the cross-section widget's
`compute_deck_total_width` doubles the carriageway
(`2*carriageway + median + 2*crashBarrier + footpathCount*footpath`),
but the balancer's `compute_deck_total_width_mm` counts the carriageway
only once (`carriageway + median + 2*crashBarrier + footpathCount*footpath`);
the two calculators disagree by exactly one carriageway width. -/
theorem median_deck_width_formulas (p : BridgeParams)
    (h : p.median_present = true) :
    (compute_deck_total_width p).1
        = 2 * p.carriageway_width + p.median_width
          + 2 * p.crash_barrier_width
          + ((numFootpaths p.footpath_config : ℕ) : ℚ) * p.footpath_width
      ∧ (compute_deck_total_width_mm p).1
        = p.carriageway_width + p.median_width + 2 * p.crash_barrier_width
          + ((numFootpaths p.footpath_config : ℕ) : ℚ) * p.footpath_width
      ∧ (compute_deck_total_width p).1 - (compute_deck_total_width_mm p).1
        = p.carriageway_width := by
  unfold compute_deck_total_width compute_deck_total_width_mm
  rw [h]
  simp only [if_pos trivial]
  refine ⟨by ring, by ring_nf, by ring_nf⟩

/-- Witness for `median_deck_width_formulas` at the default
parameters with the median enabled. -/
theorem median_deck_width_formulas_witness :
    (compute_deck_total_width medianParams).1
        = 2 * medianParams.carriageway_width + medianParams.median_width
          + 2 * medianParams.crash_barrier_width
          + ((numFootpaths medianParams.footpath_config : ℕ) : ℚ)
            * medianParams.footpath_width
      ∧ (compute_deck_total_width_mm medianParams).1
        = medianParams.carriageway_width + medianParams.median_width
          + 2 * medianParams.crash_barrier_width
          + ((numFootpaths medianParams.footpath_config : ℕ) : ℚ)
            * medianParams.footpath_width
      ∧ (compute_deck_total_width medianParams).1
          - (compute_deck_total_width_mm medianParams).1
        = medianParams.carriageway_width :=
  median_deck_width_formulas medianParams rfl

/-- C4 (confirmed): without a median, the widget deck-width calculator
returns `carriageway + 2*crashBarrier + footpathCount*footpath` with
footpath count 2/1/1/0 for both/left/right/none; the railing width never
enters the sum; at the defaults
(`carriageway=10500, crashBarrier=500, footpath=1500, config=both`) the
total is `14500`. -/
theorem deck_width_no_median (p : BridgeParams) (w : ℚ)
    (h : p.median_present = false) :
    compute_deck_total_width p
        = (p.carriageway_width + 2 * p.crash_barrier_width
            + ((numFootpaths p.footpath_config : ℕ) : ℚ) * p.footpath_width,
           numFootpaths p.footpath_config)
      ∧ compute_deck_total_width { p with railing_width := w }
          = compute_deck_total_width p
      ∧ numFootpaths .fpBoth = 2 ∧ numFootpaths .fpLeft = 1
      ∧ numFootpaths .fpRight = 1 ∧ numFootpaths .fpNone = 0
      ∧ (compute_deck_total_width defaultParams).1 = 14500 := by
  refine ⟨?_, rfl, rfl, rfl, rfl, rfl,
    by norm_num [compute_deck_total_width, defaultParams, numFootpaths]⟩
  unfold compute_deck_total_width
  rw [h]
  simp only [Bool.false_eq_true, if_false]

/-- Witness for `deck_width_no_median` at the default parameters. -/
theorem deck_width_no_median_witness :
    compute_deck_total_width defaultParams
        = (defaultParams.carriageway_width
            + 2 * defaultParams.crash_barrier_width
            + ((numFootpaths defaultParams.footpath_config : ℕ) : ℚ)
              * defaultParams.footpath_width,
           numFootpaths defaultParams.footpath_config)
      ∧ compute_deck_total_width { defaultParams with railing_width := 999 }
          = compute_deck_total_width defaultParams
      ∧ numFootpaths .fpBoth = 2 ∧ numFootpaths .fpLeft = 1
      ∧ numFootpaths .fpRight = 1 ∧ numFootpaths .fpNone = 0
      ∧ (compute_deck_total_width defaultParams).1 = 14500 :=
  deck_width_no_median defaultParams 999 rfl

/-- C5 (confirmed): at the defaults (`span=35000, n=4, spacing=2750,
carriageway=10500, config=both, footpath=1500, crashBarrier=500`) the deck
total is `14500`; in the `'other'` branch the required overhang
`(14500 - 2750*3)/2 = 3125` exceeds `MAX_OVERHANG = 2000`, so the balancer
commits `deck_overhang = 2000` and
`girder_spacing = (14500 - 4000)/3 = 3500`, inside the `[1000, 24000]`
clamp. -/
theorem other_branch_worked_example :
    (compute_deck_total_width_mm defaultParams).1 = 14500
      ∧ requiredOverhang (clamp_bracing defaultParams) = 3125
      ∧ MAX_OVERHANG < 3125
      ∧ (update_bridge .other defaultParams).deck_overhang = 2000
      ∧ (update_bridge .other defaultParams).girder_spacing = 3500
      ∧ (1000 : ℚ) ≤ 3500 ∧ (3500 : ℚ) ≤ 24000 := by
  refine ⟨?_, ?_, ?_, ?_, ?_, by norm_num, by norm_num⟩ <;>
    norm_num [update_bridge, balance, clamp_bracing, requiredOverhang,
      clampedSpacingFor, clampedOverhang, deckTotal,
      compute_deck_total_width_mm, defaultParams, numFootpaths,
      MIN_OVERHANG, MAX_OVERHANG]

/-- Parameter set exhibiting the hysteresis slack: 2 girders, spacing
13.00 m, overhang 0.751 m (all inside the spin-box ranges), no median. -/
def hysteresisParams : BridgeParams :=
  { defaultParams with num_girders := 2, girder_spacing := 13000,
                       deck_overhang := 751 }

/-- C1 counterexample: at `hysteresisParams` (valid inputs, `n = 2`,
`deckTotal = 14500`) the `'other'` branch computes
`required = (14500 - 13000)/2 = 750`, the 1 mm hysteresis
(`|750 - 751| = 1`, not `> 1`) suppresses the update, and the committed
pair leaves `|2*overhang + (n-1)*spacing - deckTotal| = 2 ≥ 1`; both
deck-width calculators agree here (no median), so the balance invariant
`< 1 mm` fails as claimed. -/
theorem balance_invariant_fails_at_hysteresis :
    ¬ (|2 * (update_bridge .other hysteresisParams).deck_overhang
        + ((hysteresisParams.num_girders : ℚ) - 1)
          * (update_bridge .other hysteresisParams).girder_spacing
        - (compute_deck_total_width_mm hysteresisParams).1| < 1)
      ∧ (compute_deck_total_width hysteresisParams).1
        = (compute_deck_total_width_mm hysteresisParams).1
      ∧ 1 < hysteresisParams.num_girders := by
  refine ⟨?_, by norm_num [compute_deck_total_width,
    compute_deck_total_width_mm, hysteresisParams, defaultParams,
    numFootpaths], by norm_num [hysteresisParams, defaultParams]⟩
  have h : (update_bridge .other hysteresisParams).deck_overhang = 751
      ∧ (update_bridge .other hysteresisParams).girder_spacing = 13000 := by
    constructor <;>
      norm_num [update_bridge, balance, clamp_bracing, requiredOverhang,
        clampedSpacingFor, clampedOverhang, deckTotal,
        compute_deck_total_width_mm, hysteresisParams, defaultParams,
        numFootpaths, MIN_OVERHANG, MAX_OVERHANG, abs_sub_lt_iff]
  rw [h.1, h.2]
  norm_num [compute_deck_total_width_mm, hysteresisParams, defaultParams,
    numFootpaths, hysteresisParams, abs_sub_lt_iff]

/-- The recomputed dependent value of the balancer stays inside its clamp
interval: for the `'overhang'` branch the raw recomputed spacing is within
`[1000, 24000]`; for the `'spacing'` and `'other'` branches the raw
required overhang is within `[MIN_OVERHANG, MAX_OVERHANG]`. -/
def balancer_unclamped (ef : EditedField) (p : BridgeParams) : Prop :=
  match ef with
  | .overhang =>
      1000 ≤ (deckTotal p - 2 * p.deck_overhang) / ((p.num_girders : ℚ) - 1)
        ∧ (deckTotal p - 2 * p.deck_overhang) / ((p.num_girders : ℚ) - 1)
          ≤ 24000
  | .spacing =>
      MIN_OVERHANG ≤ requiredOverhang p ∧ requiredOverhang p ≤ MAX_OVERHANG
  | .other =>
      MIN_OVERHANG ≤ requiredOverhang p ∧ requiredOverhang p ≤ MAX_OVERHANG

/-- C1 (amended): for `n > 1`, when the recomputed dependent value is not
clamped, the committed pair satisfies the balance identity up to the
hysteresis slack: `|2*overhang + (n-1)*spacing - deckTotal| ≤ n-1` in the
`'overhang'` branch (1 mm hysteresis on spacing, multiplied by `n-1`) and
`≤ 2` in the `'spacing'` and `'other'` branches (1 mm hysteresis on
overhang, doubled); the strict `< 1` tolerance of the original claim does
not hold. -/
theorem balance_invariant_unclamped_tolerance (ef : EditedField)
    (p : BridgeParams) (hn : 1 < p.num_girders)
    (hu : balancer_unclamped ef p) :
    |2 * (update_bridge ef p).deck_overhang
      + ((p.num_girders : ℚ) - 1) * (update_bridge ef p).girder_spacing
      - (compute_deck_total_width_mm p).1|
    ≤ (if ef = .overhang then (p.num_girders : ℚ) - 1 else 2) := by
  have hcast : (1 : ℚ) < (p.num_girders : ℚ) := by exact_mod_cast hn
  have hne : ((p.num_girders : ℚ) - 1) ≠ 0 := by linarith
  have hDmm : (compute_deck_total_width_mm p).1 = deckTotal p := rfl
  rw [update_bridge_eq, hDmm]
  have hg := clamp_bracing_girders p
  have ho := clamp_bracing_overhang p
  have hs := clamp_bracing_spacing p
  have hn' : 1 < (clamp_bracing p).num_girders := by rw [hg]; exact hn
  cases ef with
  | overhang =>
      rw [if_pos rfl]
      obtain ⟨hu1, hu2⟩ := hu
      set r := (deckTotal p - 2 * p.deck_overhang) / ((p.num_girders : ℚ) - 1)
        with hr
      have hclamp : clampedSpacingFor (clamp_bracing p) p.deck_overhang = r := by
        unfold clampedSpacingFor
        rw [clamp_bracing_deckTotal, hg, ← hr,
          min_eq_right hu2, max_eq_right hu1]
      have hkey : ((p.num_girders : ℚ) - 1) * r
          = deckTotal p - 2 * p.deck_overhang := by
        rw [hr, mul_comm]
        exact div_mul_cancel₀ _ hne
      rw [(balance_overhang_fields _).1, (balance_overhang_fields _).2,
        ho, hclamp, hs, if_pos hn']
      split_ifs with hcommit
      · have hz : 2 * p.deck_overhang + ((p.num_girders : ℚ) - 1) * r
            - deckTotal p = 0 := by rw [hkey]; ring
        rw [hz]
        simp only [abs_zero]
        linarith
      · rw [not_lt] at hcommit
        rw [abs_le] at hcommit ⊢
        constructor <;> nlinarith [hcommit.1, hcommit.2, hkey]
  | spacing =>
      rw [if_neg (by decide)]
      obtain ⟨hu1, hu2⟩ := hu
      have hreq : requiredOverhang p
          = (deckTotal p - p.girder_spacing * ((p.num_girders : ℚ) - 1)) / 2 := by
        unfold requiredOverhang
        rw [if_pos hn]
      have hclamp : clampedOverhang (clamp_bracing p) = requiredOverhang p := by
        unfold clampedOverhang
        rw [clamp_bracing_required, min_eq_right hu2, max_eq_right hu1]
      have hkey : 2 * requiredOverhang p
          = deckTotal p - p.girder_spacing * ((p.num_girders : ℚ) - 1) := by
        rw [hreq]; ring
      rw [(balance_spacing_fields _).1, (balance_spacing_fields _).2,
        hclamp, ho, hs]
      split_ifs with hcommit
      · have hz : 2 * requiredOverhang p
            + ((p.num_girders : ℚ) - 1) * p.girder_spacing - deckTotal p
            = 0 := by rw [hkey]; ring
        rw [hz]
        simp only [abs_zero]
        linarith
      · rw [not_lt] at hcommit
        rw [abs_le] at hcommit ⊢
        constructor <;> nlinarith [hcommit.1, hcommit.2, hkey]
  | other =>
      rw [if_neg (by decide)]
      obtain ⟨hu1, hu2⟩ := hu
      have hreq : requiredOverhang p
          = (deckTotal p - p.girder_spacing * ((p.num_girders : ℚ) - 1)) / 2 := by
        unfold requiredOverhang
        rw [if_pos hn]
      have hrc := clamp_bracing_required p
      have hkey : 2 * requiredOverhang p
          = deckTotal p - p.girder_spacing * ((p.num_girders : ℚ) - 1) := by
        rw [hreq]; ring
      rw [(balance_other_fields _).1, (balance_other_fields _).2, hrc,
        ho, hs, if_neg (not_lt.mpr hu1), if_neg (not_lt.mpr hu2),
        if_neg (not_lt.mpr hu1), if_neg (not_lt.mpr hu2)]
      split_ifs with hcommit
      · have hz : 2 * requiredOverhang p
            + ((p.num_girders : ℚ) - 1) * p.girder_spacing - deckTotal p
            = 0 := by rw [hkey]; ring
        rw [hz]
        simp only [abs_zero]
        linarith
      · rw [not_lt] at hcommit
        rw [abs_le] at hcommit ⊢
        constructor <;> nlinarith [hcommit.1, hcommit.2, hkey]

/-- Parameter set whose `'spacing'`-branch recompute is not clamped:
the defaults with spacing 3.5 m, giving `required = 2000` exactly. -/
def unclampedParams : BridgeParams :=
  { defaultParams with girder_spacing := 3500 }

/-- Witness for `balance_invariant_unclamped_tolerance` at
`unclampedParams` in the `'spacing'` branch. -/
theorem balance_invariant_unclamped_tolerance_witness :
    |2 * (update_bridge .spacing unclampedParams).deck_overhang
      + ((unclampedParams.num_girders : ℚ) - 1)
        * (update_bridge .spacing unclampedParams).girder_spacing
      - (compute_deck_total_width_mm unclampedParams).1|
    ≤ (if EditedField.spacing = .overhang then
        (unclampedParams.num_girders : ℚ) - 1 else 2) :=
  balance_invariant_unclamped_tolerance .spacing unclampedParams
    (by norm_num [unclampedParams, defaultParams])
    (by constructor <;>
      norm_num [requiredOverhang, deckTotal, compute_deck_total_width_mm,
        unclampedParams, defaultParams, numFootpaths, MIN_OVERHANG,
        MAX_OVERHANG])

/-- Parameter set with the overhang spin box at its 5.0 m maximum
(external range 0.1-5.0 m), 2 girders, spacing 13.0 m. -/
def maxOverhangParams : BridgeParams :=
  { defaultParams with num_girders := 2, girder_spacing := 13000,
                       deck_overhang := 5000 }

/-- C2 counterexample: with `editedField = 'overhang'` and the overhang
input at 5.0 m (inside the external 0.1-5.0 m range), `update_bridge`
passes the 5000 mm overhang through unclamped — the committed overhang is
not in `[300, 2000]`, so the claimed hard clamp of the overhang in the
`'overhang'` branch does not exist. -/
theorem overhang_bounds_fail_in_overhang_branch :
    ¬ (MIN_OVERHANG ≤ (update_bridge .overhang maxOverhangParams).deck_overhang
        ∧ (update_bridge .overhang maxOverhangParams).deck_overhang
            ≤ MAX_OVERHANG) := by
  have h : (update_bridge .overhang maxOverhangParams).deck_overhang = 5000 := by
    rw [update_bridge_eq, (balance_overhang_fields _).1, clamp_bracing_overhang]
    exact rfl
  rw [h]
  norm_num [MIN_OVERHANG, MAX_OVERHANG]

/-- C2 (amended): for a spacing input inside its external range
`[1000, 24000]`, the committed spacing stays in `[1000, 24000]` in every
branch, and whenever the balancer actually changes the overhang the new
value is in `[MIN_OVERHANG, MAX_OVERHANG] = [300, 2000]`; but in the
`'overhang'` branch the overhang itself is passed through without any
clamp (only the 0.1-5.0 m spin-box range applies to it). -/
theorem committed_bounds_amended (ef : EditedField) (p : BridgeParams)
    (hs1 : 1000 ≤ p.girder_spacing) (hs2 : p.girder_spacing ≤ 24000) :
    (1000 ≤ (update_bridge ef p).girder_spacing
        ∧ (update_bridge ef p).girder_spacing ≤ 24000)
      ∧ ((update_bridge ef p).deck_overhang ≠ p.deck_overhang →
          MIN_OVERHANG ≤ (update_bridge ef p).deck_overhang
            ∧ (update_bridge ef p).deck_overhang ≤ MAX_OVERHANG) := by
  have hsp : ∀ x : ℚ, 1000 ≤ max 1000 (min 24000 x)
      ∧ max 1000 (min 24000 x) ≤ 24000 := by
    intro x
    exact ⟨le_max_left _ _, max_le (by norm_num) (min_le_left _ _)⟩
  have hov : ∀ x : ℚ, MIN_OVERHANG ≤ max MIN_OVERHANG (min MAX_OVERHANG x)
      ∧ max MIN_OVERHANG (min MAX_OVERHANG x) ≤ MAX_OVERHANG := by
    intro x
    refine ⟨le_max_left _ _, max_le ?_ (min_le_left _ _)⟩
    norm_num [MIN_OVERHANG, MAX_OVERHANG]
  have ho := clamp_bracing_overhang p
  have hs := clamp_bracing_spacing p
  rw [update_bridge_eq]
  cases ef with
  | overhang =>
      rw [(balance_overhang_fields _).1, (balance_overhang_fields _).2, ho, hs]
      refine ⟨?_, fun hne => absurd rfl hne⟩
      split_ifs
      · exact hsp _
      · exact ⟨hs1, hs2⟩
      · exact ⟨hs1, hs2⟩
  | spacing =>
      rw [(balance_spacing_fields _).1, (balance_spacing_fields _).2, ho, hs]
      refine ⟨⟨hs1, hs2⟩, ?_⟩
      split_ifs
      · intro _
        exact hov _
      · exact fun hne => absurd rfl hne
  | other =>
      rw [(balance_other_fields _).1, (balance_other_fields _).2, ho, hs]
      constructor
      · split_ifs
        · exact hsp _
        · exact ⟨hs1, hs2⟩
        · exact hsp _
        · exact ⟨hs1, hs2⟩
        · exact ⟨hs1, hs2⟩
      · have hMM : MIN_OVERHANG ≤ MAX_OVERHANG := by
          norm_num [MIN_OVERHANG, MAX_OVERHANG]
        split_ifs with h1 h2 h3
        · exact fun _ => ⟨le_rfl, hMM⟩
        · exact fun _ => ⟨hMM, le_rfl⟩
        · rw [not_lt] at h1 h2
          exact fun _ => ⟨h1, h2⟩
        · exact fun hne => absurd rfl hne

/-- Witness for `committed_bounds_amended` at `maxOverhangParams` in the
`'overhang'` branch. -/
theorem committed_bounds_amended_witness :
    (1000 ≤ (update_bridge .overhang maxOverhangParams).girder_spacing
        ∧ (update_bridge .overhang maxOverhangParams).girder_spacing ≤ 24000)
      ∧ ((update_bridge .overhang maxOverhangParams).deck_overhang
            ≠ maxOverhangParams.deck_overhang →
          MIN_OVERHANG
              ≤ (update_bridge .overhang maxOverhangParams).deck_overhang
            ∧ (update_bridge .overhang maxOverhangParams).deck_overhang
              ≤ MAX_OVERHANG) :=
  committed_bounds_amended .overhang maxOverhangParams
    (by norm_num [maxOverhangParams, defaultParams])
    (by norm_num [maxOverhangParams, defaultParams])

/-- The defaults with a single girder. -/
def singleGirderParams : BridgeParams := { defaultParams with num_girders := 1 }

/-- C6 counterexample: with `numGirders = 1` the `'overhang'` branch does
nothing at all (it is guarded by `n > 1`), so the committed overhang stays
at its input value 1000 instead of `deckTotal/2 = 7250`; moreover even the
`'other'` branch commits `2000` (the `MAX_OVERHANG` pin), not
`deckTotal/2`.  The claim that every branch sets the overhang to exactly
`deckTotal/2`, independent of the clamp logic, is false. -/
theorem single_girder_not_half_deck :
    (update_bridge .overhang singleGirderParams).deck_overhang
        ≠ (compute_deck_total_width_mm singleGirderParams).1 / 2
      ∧ (update_bridge .other singleGirderParams).deck_overhang
        ≠ (compute_deck_total_width_mm singleGirderParams).1 / 2 := by
  have h1 : (update_bridge .overhang singleGirderParams).deck_overhang
      = 1000 := by
    rw [update_bridge_eq, (balance_overhang_fields _).1, clamp_bracing_overhang]
    exact rfl
  have h2 : (update_bridge .other singleGirderParams).deck_overhang = 2000 := by
    norm_num [update_bridge, balance, clamp_bracing, requiredOverhang,
      clampedSpacingFor, clampedOverhang, deckTotal,
      compute_deck_total_width_mm, singleGirderParams, defaultParams,
      numFootpaths, MIN_OVERHANG, MAX_OVERHANG]
  rw [h1, h2]
  constructor <;>
    norm_num [compute_deck_total_width_mm, singleGirderParams,
      defaultParams, numFootpaths]

/-- C6 (amended): for `numGirders = 1` the spacing is indeed never
recomputed (in any branch), but the overhang is not always `deckTotal/2`:
the `'overhang'` branch leaves every field unchanged, the `'spacing'`
branch commits `clamp(300, 2000, deckTotal/2)` subject to the 1 mm
hysteresis, and the `'other'` branch commits `MIN_OVERHANG` when
`deckTotal/2 < 300`, `MAX_OVERHANG` when `deckTotal/2 > 2000`, and
otherwise `deckTotal/2` subject to the 1 mm hysteresis. -/
theorem single_girder_balancer_spec (p : BridgeParams)
    (hn : p.num_girders = 1) :
    (∀ ef, (update_bridge ef p).girder_spacing = p.girder_spacing)
      ∧ (update_bridge .overhang p).deck_overhang = p.deck_overhang
      ∧ requiredOverhang p = deckTotal p / 2
      ∧ (update_bridge .spacing p).deck_overhang =
          (if 1 < |max MIN_OVERHANG (min MAX_OVERHANG (deckTotal p / 2))
              - p.deck_overhang| then
            max MIN_OVERHANG (min MAX_OVERHANG (deckTotal p / 2))
          else p.deck_overhang)
      ∧ (update_bridge .other p).deck_overhang =
          (if deckTotal p / 2 < MIN_OVERHANG then MIN_OVERHANG
           else if MAX_OVERHANG < deckTotal p / 2 then MAX_OVERHANG
           else if 1 < |deckTotal p / 2 - p.deck_overhang| then deckTotal p / 2
           else p.deck_overhang) := by
  have hn1 : ¬ 1 < p.num_girders := by omega
  have hreq : requiredOverhang p = deckTotal p / 2 := by
    unfold requiredOverhang
    rw [if_neg hn1]
  have hreqc : requiredOverhang (clamp_bracing p) = deckTotal p / 2 := by
    rw [clamp_bracing_required, hreq]
  have hn1c : ¬ 1 < (clamp_bracing p).num_girders := by
    rw [clamp_bracing_girders]; exact hn1
  have ho := clamp_bracing_overhang p
  have hs := clamp_bracing_spacing p
  refine ⟨?_, ?_, hreq, ?_, ?_⟩
  · intro ef
    rw [update_bridge_eq]
    cases ef with
    | overhang =>
        rw [(balance_overhang_fields _).2, if_neg hn1c, hs]
    | spacing =>
        rw [(balance_spacing_fields _).1, hs]
    | other =>
        rw [(balance_other_fields _).2, if_neg hn1c, if_neg hn1c, hs]
        split_ifs <;> rfl
  · rw [update_bridge_eq, (balance_overhang_fields _).1, ho]
  · rw [update_bridge_eq, (balance_spacing_fields _).2]
    unfold clampedOverhang
    rw [hreqc, ho]
  · rw [update_bridge_eq, (balance_other_fields _).1, hreqc, ho]

/-- Witness for `single_girder_balancer_spec` at `singleGirderParams`. -/
theorem single_girder_balancer_spec_witness :
    (∀ ef, (update_bridge ef singleGirderParams).girder_spacing
        = singleGirderParams.girder_spacing)
      ∧ (update_bridge .overhang singleGirderParams).deck_overhang
        = singleGirderParams.deck_overhang
      ∧ requiredOverhang singleGirderParams
        = deckTotal singleGirderParams / 2
      ∧ (update_bridge .spacing singleGirderParams).deck_overhang =
          (if 1 < |max MIN_OVERHANG (min MAX_OVERHANG
              (deckTotal singleGirderParams / 2))
              - singleGirderParams.deck_overhang| then
            max MIN_OVERHANG (min MAX_OVERHANG
              (deckTotal singleGirderParams / 2))
          else singleGirderParams.deck_overhang)
      ∧ (update_bridge .other singleGirderParams).deck_overhang =
          (if deckTotal singleGirderParams / 2 < MIN_OVERHANG then
            MIN_OVERHANG
           else if MAX_OVERHANG < deckTotal singleGirderParams / 2 then
            MAX_OVERHANG
           else if 1 < |deckTotal singleGirderParams / 2
              - singleGirderParams.deck_overhang| then
            deckTotal singleGirderParams / 2
           else singleGirderParams.deck_overhang) :=
  single_girder_balancer_spec singleGirderParams rfl

/-- `clampedSpacingFor` only reads the deck total and the girder count,
both stable under the balancer. -/
lemma balance_clampedSpacingFor (ef : EditedField) (q : BridgeParams)
    (x : ℚ) : clampedSpacingFor (balance ef q) x = clampedSpacingFor q x := by
  unfold clampedSpacingFor
  rw [balance_deckTotal, balance_girders]

/-- Core of C7: one `'other'` pass is a fixed point of a second `'other'`
pass (spacing input inside its `[1000, 24000]` range). -/
lemma balance_other_fixed (q : BridgeParams)
    (h1 : 1000 ≤ q.girder_spacing) (h2 : q.girder_spacing ≤ 24000) :
    (balance .other (balance .other q)).deck_overhang
        = (balance .other q).deck_overhang
      ∧ (balance .other (balance .other q)).girder_spacing
        = (balance .other q).girder_spacing := by
  obtain ⟨e1, e2⟩ := balance_other_fields q
  obtain ⟨f1, f2⟩ := balance_other_fields (balance .other q)
  have hD1 : deckTotal (balance .other q) = deckTotal q :=
    balance_deckTotal _ _
  have hg1 : (balance .other q).num_girders = q.num_girders :=
    balance_girders _ _
  by_cases hn : 1 < q.num_girders
  · have hncast : (1 : ℚ) < (q.num_girders : ℚ) := by exact_mod_cast hn
    have hnpos : (0 : ℚ) < (q.num_girders : ℚ) - 1 := by linarith
    have hreq : requiredOverhang q
        = (deckTotal q - q.girder_spacing * ((q.num_girders : ℚ) - 1)) / 2 := by
      unfold requiredOverhang
      rw [if_pos hn]
    have hreq1 : requiredOverhang (balance .other q)
        = (deckTotal q
            - (balance .other q).girder_spacing * ((q.num_girders : ℚ) - 1))
          / 2 := by
      unfold requiredOverhang
      rw [hD1, hg1, if_pos hn]
    have hn1 : 1 < (balance .other q).num_girders := by rw [hg1]; exact hn
    by_cases hlo : requiredOverhang q < MIN_OVERHANG
    · -- overhang pinned at MIN_OVERHANG, spacing recomputed
      have ho1 : (balance .other q).deck_overhang = MIN_OVERHANG := by
        rw [e1, if_pos hlo]
      have hsp1 : (balance .other q).girder_spacing
          = clampedSpacingFor q MIN_OVERHANG := by
        rw [e2, if_pos hlo, if_pos hn]
      set raw := (deckTotal q - 2 * MIN_OVERHANG) / ((q.num_girders : ℚ) - 1)
        with hraw
      have hcl : clampedSpacingFor q MIN_OVERHANG
          = max 1000 (min 24000 raw) := rfl
      have hrawlt : raw < 24000 := by
        rw [hreq] at hlo
        rw [hraw, div_lt_iff₀ hnpos]
        rw [div_lt_iff₀ (by norm_num : (0:ℚ) < 2)] at hlo
        nlinarith [mul_le_mul_of_nonneg_right h2 (le_of_lt hnpos)]
      by_cases hraw1 : raw < 1000
      · -- recomputed spacing clamped up to 1000; still pinned on rerun
        have hsv : clampedSpacingFor q MIN_OVERHANG = 1000 := by
          rw [hcl, min_eq_right (le_of_lt hrawlt),
            max_eq_left (le_of_lt hraw1)]
        have hreqv : requiredOverhang (balance .other q) < MIN_OVERHANG := by
          rw [hreq1, hsp1, hsv]
          rw [hraw, div_lt_iff₀ hnpos] at hraw1
          rw [div_lt_iff₀ (by norm_num : (0:ℚ) < 2)]
          norm_num [MIN_OVERHANG] at hraw1 ⊢
          linarith
        refine ⟨?_, ?_⟩
        · rw [f1, if_pos hreqv, ho1]
        · rw [f2, if_pos hreqv, if_pos hn1, balance_clampedSpacingFor,
            hsp1]
      · -- recomputed spacing unclamped; rerun lands exactly on MIN_OVERHANG
        push_neg at hraw1
        have hsv : clampedSpacingFor q MIN_OVERHANG = raw := by
          rw [hcl, min_eq_right (le_of_lt hrawlt), max_eq_right hraw1]
        have hreqv : requiredOverhang (balance .other q) = MIN_OVERHANG := by
          rw [hreq1, hsp1, hsv, hraw,
            div_mul_cancel₀ _ (ne_of_gt hnpos)]
          ring
        have hnotlo : ¬ requiredOverhang (balance .other q) < MIN_OVERHANG := by
          rw [hreqv]
          exact lt_irrefl _
        have hnothi : ¬ MAX_OVERHANG < requiredOverhang (balance .other q) := by
          rw [hreqv]
          norm_num [MIN_OVERHANG, MAX_OVERHANG]
        have hnohyst : ¬ 1 < |requiredOverhang (balance .other q)
            - (balance .other q).deck_overhang| := by
          rw [hreqv, ho1, sub_self, abs_zero]
          norm_num
        refine ⟨?_, ?_⟩
        · rw [f1, if_neg hnotlo, if_neg hnothi, if_neg hnohyst]
        · rw [f2, if_neg hnotlo, if_neg hnothi]
    · by_cases hhi : MAX_OVERHANG < requiredOverhang q
      · -- overhang pinned at MAX_OVERHANG, spacing recomputed
        have ho1 : (balance .other q).deck_overhang = MAX_OVERHANG := by
          rw [e1, if_neg hlo, if_pos hhi]
        have hsp1 : (balance .other q).girder_spacing
            = clampedSpacingFor q MAX_OVERHANG := by
          rw [e2, if_neg hlo, if_pos hhi, if_pos hn]
        set raw := (deckTotal q - 2 * MAX_OVERHANG) / ((q.num_girders : ℚ) - 1)
          with hraw
        have hcl : clampedSpacingFor q MAX_OVERHANG
            = max 1000 (min 24000 raw) := rfl
        have hrawgt : 1000 < raw := by
          rw [hreq] at hhi
          rw [hraw, lt_div_iff₀ hnpos]
          rw [lt_div_iff₀ (by norm_num : (0:ℚ) < 2)] at hhi
          nlinarith [mul_le_mul_of_nonneg_right h1 (le_of_lt hnpos)]
        by_cases hraw24 : raw ≤ 24000
        · -- recomputed spacing unclamped; rerun lands exactly on MAX_OVERHANG
          have hsv : clampedSpacingFor q MAX_OVERHANG = raw := by
            rw [hcl, min_eq_right hraw24, max_eq_right (le_of_lt hrawgt)]
          have hreqv : requiredOverhang (balance .other q) = MAX_OVERHANG := by
            rw [hreq1, hsp1, hsv, hraw,
              div_mul_cancel₀ _ (ne_of_gt hnpos)]
            ring
          have hnotlo : ¬ requiredOverhang (balance .other q)
              < MIN_OVERHANG := by
            rw [hreqv]
            norm_num [MIN_OVERHANG, MAX_OVERHANG]
          have hnothi : ¬ MAX_OVERHANG
              < requiredOverhang (balance .other q) := by
            rw [hreqv]
            exact lt_irrefl _
          have hnohyst : ¬ 1 < |requiredOverhang (balance .other q)
              - (balance .other q).deck_overhang| := by
            rw [hreqv, ho1, sub_self, abs_zero]
            norm_num
          refine ⟨?_, ?_⟩
          · rw [f1, if_neg hnotlo, if_neg hnothi, if_neg hnohyst]
          · rw [f2, if_neg hnotlo, if_neg hnothi]
        · -- recomputed spacing clamped down to 24000; still pinned on rerun
          push_neg at hraw24
          have hsv : clampedSpacingFor q MAX_OVERHANG = 24000 := by
            rw [hcl, min_eq_left (le_of_lt hraw24)]
            exact max_eq_right (by norm_num)
          have hreqv : MAX_OVERHANG < requiredOverhang (balance .other q) := by
            rw [hreq1, hsp1, hsv]
            rw [hraw, lt_div_iff₀ hnpos] at hraw24
            rw [lt_div_iff₀ (by norm_num : (0:ℚ) < 2)]
            norm_num [MAX_OVERHANG] at hraw24 ⊢
            linarith
          have hnotlo : ¬ requiredOverhang (balance .other q)
              < MIN_OVERHANG := by
            rw [not_lt]
            calc MIN_OVERHANG ≤ MAX_OVERHANG := by
                  norm_num [MIN_OVERHANG, MAX_OVERHANG]
              _ ≤ requiredOverhang (balance .other q) := le_of_lt hreqv
          refine ⟨?_, ?_⟩
          · rw [f1, if_neg hnotlo, if_pos hreqv, ho1]
          · rw [f2, if_neg hnotlo, if_pos hreqv, if_pos hn1,
              balance_clampedSpacingFor, hsp1]
      · -- required overhang inside the window: spacing untouched
        have hsp1 : (balance .other q).girder_spacing = q.girder_spacing := by
          rw [e2, if_neg hlo, if_neg hhi]
        have hreqv : requiredOverhang (balance .other q)
            = requiredOverhang q := by
          rw [hreq1, hsp1, ← hreq]
        have hnotlo : ¬ requiredOverhang (balance .other q)
            < MIN_OVERHANG := by rw [hreqv]; exact hlo
        have hnothi : ¬ MAX_OVERHANG
            < requiredOverhang (balance .other q) := by rw [hreqv]; exact hhi
        by_cases hyst : 1 < |requiredOverhang q - q.deck_overhang|
        · have ho1 : (balance .other q).deck_overhang
              = requiredOverhang q := by
            rw [e1, if_neg hlo, if_neg hhi, if_pos hyst]
          have hnohyst : ¬ 1 < |requiredOverhang (balance .other q)
              - (balance .other q).deck_overhang| := by
            rw [hreqv, ho1, sub_self, abs_zero]
            norm_num
          refine ⟨?_, ?_⟩
          · rw [f1, if_neg hnotlo, if_neg hnothi, if_neg hnohyst]
          · rw [f2, if_neg hnotlo, if_neg hnothi]
        · have ho1 : (balance .other q).deck_overhang = q.deck_overhang := by
            rw [e1, if_neg hlo, if_neg hhi, if_neg hyst]
          have hnohyst : ¬ 1 < |requiredOverhang (balance .other q)
              - (balance .other q).deck_overhang| := by
            rw [hreqv, ho1]
            exact hyst
          refine ⟨?_, ?_⟩
          · rw [f1, if_neg hnotlo, if_neg hnothi, if_neg hnohyst]
          · rw [f2, if_neg hnotlo, if_neg hnothi]
  · -- single girder: spacing never recomputed, overhang re-pins identically
    have hn1 : ¬ 1 < (balance .other q).num_girders := by
      rw [hg1]; exact hn
    have hreqq : requiredOverhang q = deckTotal q / 2 := by
      unfold requiredOverhang
      rw [if_neg hn]
    have hreq1 : requiredOverhang (balance .other q) = deckTotal q / 2 := by
      unfold requiredOverhang
      rw [hD1, hg1, if_neg hn]
    have hspfix : (balance .other (balance .other q)).girder_spacing
        = (balance .other q).girder_spacing := by
      rw [f2, if_neg hn1, if_neg hn1]
      split_ifs <;> rfl
    refine ⟨?_, hspfix⟩
    by_cases hlo : deckTotal q / 2 < MIN_OVERHANG
    · have ho1 : (balance .other q).deck_overhang = MIN_OVERHANG := by
        rw [e1, if_pos (by rw [hreqq]; exact hlo)]
      rw [f1, if_pos (by rw [hreq1]; exact hlo), ho1]
    · by_cases hhi : MAX_OVERHANG < deckTotal q / 2
      · have ho1 : (balance .other q).deck_overhang = MAX_OVERHANG := by
          rw [e1, if_neg (by rw [hreqq]; exact hlo),
            if_pos (by rw [hreqq]; exact hhi)]
        rw [f1, if_neg (by rw [hreq1]; exact hlo),
          if_pos (by rw [hreq1]; exact hhi), ho1]
      · by_cases hyst : 1 < |deckTotal q / 2 - q.deck_overhang|
        · have ho1 : (balance .other q).deck_overhang = deckTotal q / 2 := by
            rw [e1, if_neg (by rw [hreqq]; exact hlo),
              if_neg (by rw [hreqq]; exact hhi),
              if_pos (by rw [hreqq]; exact hyst), hreqq]
          rw [f1, if_neg (by rw [hreq1]; exact hlo),
            if_neg (by rw [hreq1]; exact hhi),
            if_neg (by rw [hreq1, ho1, sub_self, abs_zero]; norm_num)]
        · have ho1 : (balance .other q).deck_overhang = q.deck_overhang := by
            rw [e1, if_neg (by rw [hreqq]; exact hlo),
              if_neg (by rw [hreqq]; exact hhi),
              if_neg (by rw [hreqq]; exact hyst)]
          rw [f1, if_neg (by rw [hreq1]; exact hlo),
            if_neg (by rw [hreq1]; exact hhi),
            if_neg (by rw [hreq1, ho1]; exact hyst)]

/-- C7 (confirmed): for a spacing input inside its external `[1000, 24000]`
range, running `update_bridge` with `editedField = 'other'` on the
overhang/spacing pair it just produced (same deck total, same girder
count) commits no further change to either field: one pass is a fixed
point of the `'other'` branch. -/
theorem balancer_other_idempotent (p : BridgeParams)
    (hs1 : 1000 ≤ p.girder_spacing) (hs2 : p.girder_spacing ≤ 24000) :
    (update_bridge .other (update_bridge .other p)).deck_overhang
        = (update_bridge .other p).deck_overhang
      ∧ (update_bridge .other (update_bridge .other p)).girder_spacing
        = (update_bridge .other p).girder_spacing := by
  rw [update_bridge_twice, update_bridge_eq]
  exact balance_other_fixed (clamp_bracing p)
    (by rw [clamp_bracing_spacing]; exact hs1)
    (by rw [clamp_bracing_spacing]; exact hs2)

/-- Witness for `balancer_other_idempotent` at the default parameters. -/
theorem balancer_other_idempotent_witness :
    (update_bridge .other (update_bridge .other defaultParams)).deck_overhang
        = (update_bridge .other defaultParams).deck_overhang
      ∧ (update_bridge .other
          (update_bridge .other defaultParams)).girder_spacing
        = (update_bridge .other defaultParams).girder_spacing :=
  balancer_other_idempotent defaultParams
    (by norm_num [defaultParams]) (by norm_num [defaultParams])

/-- C8 counterexample: for `span = 35000`, `crossBracingSpacing = 3500`
(scale 1, span start at 0), `num_braces = max(1, ceil(10)) = 10` but the
drawing loop `for section in range(1, num_braces)` draws only 9 braces,
and neither the span start nor the span end is among the drawn positions —
the brace count is not `max(1, ceil(span/bracing))` and the positions do
not span start to end inclusive. -/
theorem bracing_count_and_coverage_fail :
    ¬ ((bracing_positions 0 35000 (num_braces 35000 3500)).length
          = num_braces 35000 3500
        ∧ (0 : ℚ) ∈ bracing_positions 0 35000 (num_braces 35000 3500)
        ∧ (35000 : ℚ) ∈ bracing_positions 0 35000 (num_braces 35000 3500)) := by
  have hnb : num_braces 35000 3500 = 10 := by
    norm_num [num_braces]
    rfl
  have hlen : (bracing_positions 0 35000 (num_braces 35000 3500)).length
      = 9 := by
    rw [hnb]
    unfold bracing_positions
    rw [List.length_map, List.length_range']
  rintro ⟨hl, -, -⟩
  rw [hlen, hnb] at hl
  exact absurd hl (by norm_num)

/-- C8 (amended): with `numBraces = max(1, ceil(spanLength/bracingSpacing))`
the top view draws `numBraces - 1` braces, evenly spaced at
`actualSpacing = spanLengthPx / numBraces` (position `i` is
`start + (i+1)*actualSpacing`), and every drawn brace lies strictly
between the span start and the span end; the two ends themselves carry
bearing lines and end diaphragms, not braces. -/
theorem bracing_interior_spec (span bracing start spanPx : ℚ)
    (_hb : 0 < bracing) (hsp : 0 < spanPx) :
    (bracing_positions start spanPx (num_braces span bracing)).length
        = num_braces span bracing - 1
      ∧ (∀ i (hi : i <
          (bracing_positions start spanPx (num_braces span bracing)).length),
          (bracing_positions start spanPx (num_braces span bracing)).get
              ⟨i, hi⟩
            = start + ((1 + i : ℕ) : ℚ)
              * (spanPx / (num_braces span bracing : ℚ)))
      ∧ (∀ x ∈ bracing_positions start spanPx (num_braces span bracing),
          start < x ∧ x < start + spanPx) := by
  have hnb1 : 1 ≤ num_braces span bracing := le_max_left _ _
  have hnbQ : (0 : ℚ) < (num_braces span bracing : ℚ) := by
    exact_mod_cast Nat.lt_of_lt_of_le Nat.zero_lt_one hnb1
  have hdelta : 0 < spanPx / (num_braces span bracing : ℚ) :=
    div_pos hsp hnbQ
  refine ⟨?_, ?_, ?_⟩
  · unfold bracing_positions
    rw [List.length_map, List.length_range']
  · intro i hi
    unfold bracing_positions at hi ⊢
    rw [List.get_eq_getElem, List.getElem_map, List.getElem_range'_1]
  · intro x hx
    unfold bracing_positions at hx
    rw [List.mem_map] at hx
    obtain ⟨k, hk, rfl⟩ := hx
    rw [List.mem_range'_1] at hk
    obtain ⟨hk1, hk2⟩ := hk
    have hkQ1 : (1 : ℚ) ≤ (k : ℚ) := by exact_mod_cast hk1
    have hkQ2 : (k : ℚ) < (num_braces span bracing : ℚ) := by
      exact_mod_cast (by omega : k < num_braces span bracing)
    have hcancel : spanPx / (num_braces span bracing : ℚ)
        * (num_braces span bracing : ℚ) = spanPx :=
      div_mul_cancel₀ _ (ne_of_gt hnbQ)
    constructor
    · nlinarith
    · nlinarith

/-- Witness for `bracing_interior_spec` at the default span and bracing
spacing (scale 1, span start 0). -/
theorem bracing_interior_spec_witness :
    (bracing_positions 0 35000 (num_braces 35000 3500)).length
        = num_braces 35000 3500 - 1
      ∧ (∀ i (hi : i <
          (bracing_positions 0 35000 (num_braces 35000 3500)).length),
          (bracing_positions 0 35000 (num_braces 35000 3500)).get ⟨i, hi⟩
            = 0 + ((1 + i : ℕ) : ℚ)
              * ((35000 : ℚ) / (num_braces 35000 3500 : ℚ)))
      ∧ (∀ x ∈ bracing_positions 0 35000 (num_braces 35000 3500),
          (0 : ℚ) < x ∧ x < 0 + 35000) :=
  bracing_interior_spec 35000 3500 0 35000 (by norm_num) (by norm_num)

/-- C9 counterexample: at `skewAngleDeg = 10` and transverse offset
`Δy = 2750`, the code's longitudinal shift
(`girder_skewed_x` from base 0) is `2750 * tan(radians(-10)) ≈ -485`,
strictly negative, and therefore NOT equal to
`2750 * tan(radians(10)) ≈ +485` as the claim states: the source negates
the skew angle before the projection (cad.py line 1533). -/
theorem skew_shift_sign_flipped :
    girder_skewed_x 0 10 2750 ≠ 2750 * Real.tan (10 * (Real.pi / 180))
      ∧ girder_skewed_x 0 10 2750 < 0 := by
  have hpi := Real.pi_pos
  have htanpos : 0 < Real.tan (10 * (Real.pi / 180)) := by
    apply Real.tan_pos_of_pos_of_lt_pi_div_two
    · linarith
    · linarith
  have hval : girder_skewed_x 0 10 2750
      = -(2750 * Real.tan (10 * (Real.pi / 180))) := by
    unfold girder_skewed_x skew_rad
    rw [neg_mul, Real.tan_neg]
    ring
  rw [hval]
  constructor
  · intro h
    nlinarith
  · nlinarith

/-- C9 (amended): the top view shifts a point at transverse offset `Δy`
longitudinally by `Δy * tan(radians(-skewAngleDeg))
= -(Δy * tan(radians(skewAngleDeg)))` — the sign is opposite to the
claim's formula — and this one shift is indeed applied identically to
girder endpoints, cross-bracing endpoints and bearing-line endpoints; for
`skewAngleDeg = 10`, `Δy = 2750` the shift is `≈ -485`, not `+485`. -/
theorem skew_shift_formula (theta dy b : ℝ) :
    girder_skewed_x b theta dy - b
        = -(dy * Real.tan (theta * (Real.pi / 180)))
      ∧ bracing_skewed_x b theta dy = girder_skewed_x b theta dy
      ∧ bearing_skewed_x b theta dy = girder_skewed_x b theta dy
      ∧ girder_skewed_x b theta dy
        = b + dy * Real.tan (skew_rad theta) := by
  refine ⟨?_, rfl, rfl, rfl⟩
  unfold girder_skewed_x skew_rad
  rw [neg_mul, Real.tan_neg]
  ring

/-- C10 counterexample: with carriageway 4250, crash barriers 2x500,
footpath config none (deck total 5250 mm) and an overhang input of 5.0 m
(inside the 0.1-5.0 m spin-box range), at scale 0.1 px/mm the deck spans
`[0, 525]` px, the overhang is 500 px and the flange half-width 15 px;
`first_girder_x = 500 > last_girder_x = 25`, so for `n = 2` the position
list is `[500, 25]` — it is NOT strictly increasing. -/
theorem girder_positions_not_strictly_increasing :
    ¬ ((girder_positions 0 525 500 15 (525 / 2) 2).length = max 1 2
        ∧ List.Pairwise (· < ·) (girder_positions 0 525 500 15 (525 / 2) 2)) := by
  have hval : girder_positions 0 525 500 15 (525 / 2) 2 = [500, 25] := by
    unfold girder_positions girder_positions_raw
    rw [if_pos (by norm_num)]
    norm_num [List.range_succ, List.range_zero, max_def, min_def]
  rintro ⟨-, hmono⟩
  rw [hval] at hmono
  have h := List.rel_of_pairwise_cons hmono (List.mem_singleton_self (25 : ℚ))
  norm_num at h

/-- C10 (amended): provided `2*overhang < deckRight - deckLeft` (which the
balancer normally guarantees), the cross-section position list has exactly
`max(1, numGirders)` elements, the pre-clamp positions are strictly
increasing and evenly spaced from `deckLeft + overhang` to
`deckRight - overhang` with spacing `(last - first)/(n-1)`, the clamped
list (clamp interval `[deckLeft + flangeHalf + 1,
deckRight - flangeHalf - 1]`, one pixel inside the flange band) is weakly
increasing with every element in `[deckLeft, deckRight]`, and when
`flangeHalf + 1 ≤ overhang` the clamp is a no-op so the final list is
strictly increasing as well.  Without the `2*overhang < width` premise the
original claim fails (`girder_positions_not_strictly_increasing`). -/
theorem girder_positions_spec (dl dr ov fh cx : ℚ) (n : ℕ)
    (hov : 2 * ov < dr - dl) (hfh : 0 ≤ fh)
    (hint : dl + fh + 1 ≤ dr - fh - 1) :
    (girder_positions dl dr ov fh cx n).length = max 1 n
      ∧ List.Pairwise (· < ·) (girder_positions_raw dl dr ov cx n)
      ∧ (1 < n → ∀ i (hi : i < (girder_positions_raw dl dr ov cx n).length),
          (girder_positions_raw dl dr ov cx n).get ⟨i, hi⟩
            = (dl + ov) + (i : ℚ)
              * (((dr - ov) - (dl + ov)) / ((n : ℚ) - 1)))
      ∧ List.Pairwise (· ≤ ·) (girder_positions dl dr ov fh cx n)
      ∧ (∀ x ∈ girder_positions dl dr ov fh cx n, dl ≤ x ∧ x ≤ dr)
      ∧ (1 < n → fh + 1 ≤ ov →
          girder_positions dl dr ov fh cx n
            = girder_positions_raw dl dr ov cx n) := by
  by_cases hn : 1 < n
  · have hm : max 1 n = n := max_eq_right (Nat.one_le_of_lt hn)
    have hmQ : (1 : ℚ) < (n : ℚ) := by exact_mod_cast hn
    have hden : (0 : ℚ) < (n : ℚ) - 1 := by linarith
    have hnum : (0 : ℚ) < (dr - ov) - (dl + ov) := by linarith
    set sp := ((dr - ov) - (dl + ov)) / ((n : ℚ) - 1) with hsp
    have hsppos : 0 < sp := div_pos hnum hden
    have hcancel : ((n : ℚ) - 1) * sp = (dr - ov) - (dl + ov) := by
      rw [hsp, mul_comm]
      exact div_mul_cancel₀ _ (ne_of_gt hden)
    have hguard : 1 < max 1 n := by rw [hm]; exact hn
    have hraw : girder_positions_raw dl dr ov cx n
        = (List.range n).map (fun (i : ℕ) => (dl + ov) + (i : ℚ) * sp) := by
      unfold girder_positions_raw
      rw [if_pos hguard, hm]
    have hrawmem : ∀ y ∈ girder_positions_raw dl dr ov cx n,
        dl + ov ≤ y ∧ y ≤ dr - ov := by
      intro y hy
      rw [hraw, List.mem_map] at hy
      obtain ⟨i, hi, rfl⟩ := hy
      rw [List.mem_range] at hi
      have hiQ : (i : ℚ) ≤ (n : ℚ) - 1 := by
        have : (i : ℚ) ≤ (n : ℚ) - 1 ↔ (i : ℚ) + 1 ≤ (n : ℚ) := by
          constructor <;> intro <;> linarith
        rw [this]
        exact_mod_cast Nat.succ_le_of_lt hi
      constructor
      · nlinarith [mul_nonneg (Nat.cast_nonneg i : (0:ℚ) ≤ i) hsppos.le]
      · nlinarith [mul_le_mul_of_nonneg_right hiQ hsppos.le]
    have hpairraw : List.Pairwise (· < ·)
        (girder_positions_raw dl dr ov cx n) := by
      rw [hraw]
      refine (List.pairwise_lt_range n).map _ ?_
      intro a b hab
      have : (a : ℚ) < (b : ℚ) := by exact_mod_cast hab
      nlinarith [mul_lt_mul_of_pos_right this hsppos]
    refine ⟨?_, hpairraw, ?_, ?_, ?_, ?_⟩
    · unfold girder_positions
      rw [List.length_map, hraw, List.length_map, List.length_range, hm]
    · intro _ i hi
      rw [List.get_eq_getElem]
      simp only [hraw, List.getElem_map, List.getElem_range]
    · unfold girder_positions
      refine hpairraw.map _ ?_
      intro a b hab
      exact max_le_max le_rfl (min_le_min le_rfl hab.le)
    · intro x hx
      unfold girder_positions at hx
      rw [List.mem_map] at hx
      obtain ⟨y, _, rfl⟩ := hx
      constructor
      · calc dl ≤ dl + fh + 1 := by linarith
          _ ≤ max (dl + fh + 1) (min (dr - fh - 1) y) := le_max_left _ _
      · have h := max_le hint (min_le_left (dr - fh - 1) y)
        linarith
    · intro _ hclr
      unfold girder_positions
      have hid : ∀ y ∈ girder_positions_raw dl dr ov cx n,
          max (dl + fh + 1) (min (dr - fh - 1) y) = y := by
        intro y hy
        obtain ⟨hy1, hy2⟩ := hrawmem y hy
        rw [min_eq_right (by linarith), max_eq_right (by linarith)]
      calc (girder_positions_raw dl dr ov cx n).map
            (fun p => max (dl + fh + 1) (min (dr - fh - 1) p))
          = (girder_positions_raw dl dr ov cx n).map id :=
            List.map_congr_left hid
        _ = girder_positions_raw dl dr ov cx n := List.map_id _
  · have hm : max 1 n = 1 := by omega
    have hguard : ¬ 1 < max 1 n := by omega
    have hraw : girder_positions_raw dl dr ov cx n = [cx] := by
      unfold girder_positions_raw
      rw [if_neg hguard]
    have hps : girder_positions dl dr ov fh cx n
        = [max (dl + fh + 1) (min (dr - fh - 1) cx)] := by
      unfold girder_positions
      rw [hraw, List.map_singleton]
    refine ⟨?_, ?_, fun hn' => absurd hn' hn, ?_, ?_, fun hn' => absurd hn' hn⟩
    · rw [hps, hm]
      rfl
    · rw [hraw]
      exact List.pairwise_singleton _ _
    · rw [hps]
      exact List.pairwise_singleton _ _
    · intro x hx
      rw [hps, List.mem_singleton] at hx
      subst hx
      constructor
      · calc dl ≤ dl + fh + 1 := by linarith
          _ ≤ max (dl + fh + 1) (min (dr - fh - 1) cx) := le_max_left _ _
      · have h := max_le hint (min_le_left (dr - fh - 1) cx)
        linarith

/-- Witness for `girder_positions_spec` at the default cross-section
quantities (deck `[0, 14500]`, overhang 2000, flange half 150, 4 girders). -/
theorem girder_positions_spec_witness :
    (girder_positions 0 14500 2000 150 7250 4).length = max 1 4
      ∧ List.Pairwise (· < ·) (girder_positions_raw 0 14500 2000 7250 4)
      ∧ (1 < 4 → ∀ i (hi : i < (girder_positions_raw 0 14500 2000 7250 4).length),
          (girder_positions_raw 0 14500 2000 7250 4).get ⟨i, hi⟩
            = (0 + 2000) + (i : ℚ)
              * (((14500 - 2000) - (0 + 2000)) / (((4 : ℕ) : ℚ) - 1)))
      ∧ List.Pairwise (· ≤ ·) (girder_positions 0 14500 2000 150 7250 4)
      ∧ (∀ x ∈ girder_positions 0 14500 2000 150 7250 4,
          (0 : ℚ) ≤ x ∧ x ≤ 14500)
      ∧ (1 < 4 → (150 : ℚ) + 1 ≤ 2000 →
          girder_positions 0 14500 2000 150 7250 4
            = girder_positions_raw 0 14500 2000 7250 4) :=
  girder_positions_spec 0 14500 2000 150 7250 4
    (by norm_num) (by norm_num) (by norm_num)

end CadModel
